import Mathlib

/-!
Verification development for the physics bookkeeping layer of
`libraries/physics/src/PhysicsEngine.cpp` (the Physics World Facade on top of an
external discrete-dynamics simulator).

Shallow embedding conventions:
* `glm::vec3` / `btVector3` float vectors are embedded as rational 3-vectors
  (`Vec3`); the claims under study are about bookkeeping (reference counts,
  flags, key canonicalization, clamping), not float rounding.
* Heap pointers are embedded as `Nat` identifiers allocated from a counter in
  the engine state; the dynamics world holds lists of the identifiers of the
  bodies / collision objects currently inserted.
* Collision shapes are deduplicated by the Shape Cache, so a shape pointer is
  in one-to-one correspondence with its canonical descriptor; a shape handle is
  therefore embedded as the descriptor itself, with `ShapeInfo.noShape`
  standing for the NULL shape pointer (and for a descriptor of type NONE).
* The external simulator (Bullet) and the collaborators whose sources are not
  part of the repository snapshot (ShapeManager, PositionHashKey,
  CustomMotionState, the PHYSICS_UPDATE flag constants) are modelled from the
  specification, at the interface boundary the specification describes; each
  such definition carries a doc comment saying so.
* `assert(...)` sites in the source are embedded by an `assertionFailures`
  counter: a failed assertion increments the counter and execution continues,
  matching release-build semantics while recording where a debug build would
  halt.
-/

/-- Rational 3-vector standing in for `glm::vec3` / `btVector3`. -/
structure Vec3 where
  x : ℚ
  y : ℚ
  z : ℚ
deriving DecidableEq

def Vec3.zero : Vec3 := ⟨0, 0, 0⟩

def Vec3.add (a b : Vec3) : Vec3 := ⟨a.x + b.x, a.y + b.y, a.z + b.z⟩

def Vec3.sub (a b : Vec3) : Vec3 := ⟨a.x - b.x, a.y - b.y, a.z - b.z⟩

/-- A `btTransform` restricted to its origin; no claim under study concerns the
basis (rotation) part, so only the origin is carried. -/
structure BtTransform where
  origin : Vec3
deriving DecidableEq

/-- Shape descriptor (`ShapeInfo`): discriminated by shape kind, box with
half-extents being the only kind the source constructs. `noShape` stands both
for a descriptor whose type is NONE and for the NULL `btCollisionShape`
pointer (shape handles are embedded as their canonical descriptor, see the
file header). -/
inductive ShapeInfo where
  | noShape
  | box (halfExtents : Vec3)
deriving DecidableEq

/-- Mirrors `info.setBox(halfExtents)` on a default-constructed `ShapeInfo`. -/
def ShapeInfo.setBox (halfExtents : Vec3) : ShapeInfo := ShapeInfo.box halfExtents

/-- Modelled from the spec (§4.1): the Shape Cache "must support lookup by
reconstructing a descriptor from a live shape ... producing the same canonical
key as lookup by descriptor". A shape handle is embedded as its canonical
descriptor, so reconstruction is the identity. -/
def ShapeInfo.collectInfo (shape : ShapeInfo) : ShapeInfo := shape

/-- Modelled from the external simulator boundary:
`shape->calculateLocalInertia(mass, inertia)` for a box of half-extents `h`
yields the solid-box inertia `mass/3 * (hy^2+hz^2, hx^2+hz^2, hx^2+hy^2)`.
The claims under study use only that the result is a function of shape and
mass. -/
def ShapeInfo.calculateLocalInertia (shape : ShapeInfo) (mass : ℚ) : Vec3 :=
  match shape with
  | ShapeInfo.noShape => Vec3.zero
  | ShapeInfo.box h =>
      ⟨mass / 3 * (h.y * h.y + h.z * h.z),
       mass / 3 * (h.x * h.x + h.z * h.z),
       mass / 3 * (h.x * h.x + h.y * h.y)⟩

/-- Modelled from the spec (§2, §4.1): the Shape Cache (ShapeManager) owns all
collision shapes keyed by canonical descriptor with a reference count;
`valid` is the geometry acceptance test ("construction can fail for
out-of-range geometry"), left abstract as a field since the spec fixes no
particular range. Stored counts are at least 1. -/
structure ShapeManager where
  valid : ShapeInfo → Bool
  counts : ShapeInfo → Option Nat

/-- Modelled from the spec (§4.1): `acquire(descriptor)` returns an existing
shape if an equal descriptor is cached (incrementing its count); otherwise
attempts construction, which fails (returning the NULL shape, caching
nothing) for rejected geometry; on success inserts with count 1.
Mirrors `ShapeManager::getShape(info)`. -/
def ShapeManager.getShape (sm : ShapeManager) (info : ShapeInfo) :
    ShapeInfo × ShapeManager :=
  if info = ShapeInfo.noShape then (ShapeInfo.noShape, sm)
  else
    match sm.counts info with
    | some n =>
        (info, { sm with counts := fun d => if d = info then some (n + 1) else sm.counts d })
    | Option.none =>
        if sm.valid info then
          (info, { sm with counts := fun d => if d = info then some 1 else sm.counts d })
        else (ShapeInfo.noShape, sm)

/-- Modelled from the spec (§4.1): `release` decrements the matching entry's
count, destroying the shape and removing the entry when it reaches zero;
returns false if no matching entry exists. Mirrors
`ShapeManager::releaseShape`. -/
def ShapeManager.releaseShape (sm : ShapeManager) (info : ShapeInfo) :
    Bool × ShapeManager :=
  match sm.counts info with
  | some n =>
      if n ≤ 1 then
        (true, { sm with counts := fun d => if d = info then Option.none else sm.counts d })
      else
        (true, { sm with counts := fun d => if d = info then some (n - 1) else sm.counts d })
  | Option.none => (false, sm)

/-- The net reference count the Shape Cache holds for a descriptor. -/
def ShapeManager.refCount (sm : ShapeManager) (info : ShapeInfo) : Nat :=
  (sm.counts info).getD 0

/-- Motion classification (`MotionType`): `MOTION_TYPE_STATIC`,
`MOTION_TYPE_KINEMATIC`, `MOTION_TYPE_DYNAMIC`. -/
inductive MotionType where
  | static
  | kinematic
  | dynamic
deriving DecidableEq

/-- The two collision-flag bits the source reads and writes
(`CF_STATIC_OBJECT`, `CF_KINEMATIC_OBJECT`); no other bit of the Bullet
collision-flag word is ever touched by this layer. -/
structure CollisionFlags where
  staticObject : Bool
  kinematicObject : Bool
deriving DecidableEq

/-- Bullet activation states used by the source: `ACTIVE_TAG`,
`DISABLE_DEACTIVATION`, `DISABLE_SIMULATION` (the remaining two states are
listed for completeness). -/
inductive ActivationState where
  | activeTag
  | islandSleeping
  | wantsDeactivation
  | disableDeactivation
  | disableSimulation
deriving DecidableEq

/-- Modelled from the spec (§3, §6): the update-flags bitmask with bits
`Position`, `Velocity`, `Mass`, `Shape` and the classification-change bit
(`motionType`), embedded as a record of booleans. The header defining
`PHYSICS_UPDATE_*` is not part of the repository snapshot. -/
structure UpdateFlags where
  position : Bool
  velocity : Bool
  mass : Bool
  motionType : Bool
  shape : Bool
deriving DecidableEq

/-- Modelled from the spec: the `PHYSICS_UPDATE_EASY` mask. §4.5 lists the
`Mass` step among the easy-update steps that step 4 of the hard update applies
when "any Easy bits are also set", and the source comment at the dynamic
branch of `updateEntityHard` ("always update mass properties when going
dynamic (unless it's already been done)") is sound only if a set `Mass` bit
triggers the easy steps; hence the easy mask is Position, Velocity and Mass.
(§6 lists `Mass` under the Hard tier as a trigger; triggering is covered by
`Shape` always implying `Mass` and by the claims quantifying over every
hard-triggering combination.) -/
def UpdateFlags.easy (f : UpdateFlags) : Bool := f.position || f.velocity || f.mass

/-- Modelled from the spec (§6): the `PHYSICS_UPDATE_HARD` mask — shape change
or classification change requires removal and reinsertion. -/
def UpdateFlags.hard (f : UpdateFlags) : Bool := f.motionType || f.shape

/-- A simulator rigid body (`btRigidBody`) as observed through the operations
this layer performs on it. `msId` is the motion-state back-pointer the
constructor stores; `disableWorldGravity` is the `BT_DISABLE_WORLD_GRAVITY`
rigid-body flag. -/
structure RigidBody where
  msId : Nat
  shape : ShapeInfo
  mass : ℚ
  inertia : Vec3
  collisionFlags : CollisionFlags
  activationState : ActivationState
  disableWorldGravity : Bool
  worldTransform : BtTransform
  linearVelocity : Vec3
  angularVelocity : Vec3
  gravity : Vec3
  restitution : ℚ
  friction : ℚ
deriving DecidableEq

/-- Modelled from the external simulator boundary:
`btRigidBody(mass, motionState, shape, inertia)` — a fresh body with clear
collision and rigid-body flags, active, its world transform pulled from the
motion state, zero velocities and gravity, and the Bullet default restitution
and friction scalars. -/
def newRigidBody (mass : ℚ) (msId : Nat) (msTransform : BtTransform)
    (shape : ShapeInfo) (inertia : Vec3) : RigidBody :=
  { msId := msId
    shape := shape
    mass := mass
    inertia := inertia
    collisionFlags := { staticObject := false, kinematicObject := false }
    activationState := ActivationState.activeTag
    disableWorldGravity := false
    worldTransform := msTransform
    linearVelocity := Vec3.zero
    angularVelocity := Vec3.zero
    gravity := Vec3.zero
    restitution := 0
    friction := 1/2 }

/-- Modelled from the spec (§4.4 "force-activate", §4.5 "Force-activate the
body at the end"): `body->activate(forceActivation)` makes the body active;
without force it applies only to bodies that are neither static nor
kinematic. -/
def RigidBody.activate (b : RigidBody) (forceActivation : Bool) : RigidBody :=
  if forceActivation || (!b.collisionFlags.staticObject && !b.collisionFlags.kinematicObject) then
    { b with activationState := ActivationState.activeTag }
  else b

/-- Modelled from the spec (§3, §6): the Motion Proxy (`CustomMotionState`) —
the physics-facing state of an external entity, plus the non-owning simulator
body back-reference `body` (NULL before add and after remove). `shapeInfo` is
what `computeShapeInfo` reports, `motionType` what `getMotionType` reports,
`mass` what `getMass` reports, `worldTransform` what `getWorldTransform`
reports. -/
structure CustomMotionState where
  shapeInfo : ShapeInfo
  motionType : MotionType
  mass : ℚ
  worldTransform : BtTransform
  linearVelocity : Vec3
  angularVelocity : Vec3
  gravity : Vec3
  restitution : ℚ
  friction : ℚ
  body : Option Nat
deriving DecidableEq

/-- Modelled from the spec (§4.5, §6): `motionState->applyVelocities()`
re-derives linear and angular velocity from the proxy and applies them to the
body. The source writes through the back-reference of the proxy, which at
every call site is the body being operated on; the embedding writes to that
body directly. -/
def CustomMotionState.applyVelocities (ms : CustomMotionState) (b : RigidBody) : RigidBody :=
  { b with linearVelocity := ms.linearVelocity, angularVelocity := ms.angularVelocity }

/-- Modelled from the spec (§4.5, §6): `motionState->applyGravity()` applies
the local-gravity override of the proxy to the body (same call-site remark as
`applyVelocities`). -/
def CustomMotionState.applyGravity (ms : CustomMotionState) (b : RigidBody) : RigidBody :=
  { b with gravity := ms.gravity }

/-- A static collision object (`btCollisionObject`) as used for voxels: its
shape, its world transform, and its collision flags (Bullet constructs
collision objects with the static flag set). -/
structure BtCollisionObject where
  shape : ShapeInfo
  worldTransform : BtTransform
  collisionFlags : CollisionFlags
deriving DecidableEq

/-- A voxel-map record: the canonical true center it was keyed by and the
identifier of the static collision object inserted into the simulator. -/
structure VoxelObject where
  trueCenter : Vec3
  object : Nat
deriving DecidableEq

/-- Modelled from the spec (§3 "canonical position", §4.2): `PositionHashKey`
is a deterministic quantization of the true-center position, used so that add
and remove compute the same key from the same nominal pair. Over exact
rationals the canonical key is the true center itself. -/
def positionHashKey (trueCenter : Vec3) : Vec3 := trueCenter

/-- The Physics World Facade state (`PhysicsEngine`): the Shape Cache, the
Voxel Map, the simulation-frame origin offset, the heaps of allocated
collision objects / rigid bodies / motion proxies (keyed by identifier), the
lists of objects and bodies currently inserted in the dynamics world, the
allocation counter, and the debug-assertion failure counter. -/
structure PhysicsEngine where
  shapeManager : ShapeManager
  originOffset : Vec3
  voxels : Vec3 → Option VoxelObject
  objects : Nat → Option BtCollisionObject
  worldObjects : List Nat
  motionStates : Nat → Option CustomMotionState
  bodies : Nat → Option RigidBody
  worldBodies : List Nat
  nextId : Nat
  assertionFailures : Nat

/-- Apply a mutation to the rigid body with identifier `bid` (a `body->set...`
call on a live body). -/
def modifyBody (e : PhysicsEngine) (bid : Nat) (f : RigidBody → RigidBody) : PhysicsEngine :=
  { e with bodies := fun i => if i = bid then (e.bodies i).map f else e.bodies i }

/-- An `assert(cond)` site: a failed assertion is recorded and execution
continues (release-build semantics; a debug build would halt here). -/
def btAssert (e : PhysicsEngine) (cond : Bool) : PhysicsEngine :=
  if cond then e else { e with assertionFailures := e.assertionFailures + 1 }

/-- Write the body back-reference of the proxy (`motionState->_body = ...`). -/
def setMsBody (e : PhysicsEngine) (msId : Nat) (b : Option Nat) : PhysicsEngine :=
  { e with motionStates := fun i =>
      if i = msId then (e.motionStates i).map (fun ms => { ms with body := b })
      else e.motionStates i }

/-- The body back-reference of the proxy `msId` (NULL both when the proxy does
not exist and when its `_body` is NULL). -/
def msBody (e : PhysicsEngine) (msId : Nat) : Option Nat :=
  (e.motionStates msId).bind (fun ms => ms.body)

/-- The motion-state back-pointer stored in the body `bid`, if allocated. -/
def bodyMs (e : PhysicsEngine) (bid : Nat) : Option Nat :=
  (e.bodies bid).map (fun b => b.msId)

/-- The arguments of one `_dynamicsWorld->stepSimulation(...)` call. -/
structure StepCall where
  timeStep : ℚ
  maxNumSubSteps : Nat
  fixedSubStep : ℚ

/-- `PhysicsEngine::stepSimulation` (lines 50-59): the elapsed wall-clock time
(read from the clock in microseconds) is converted to seconds, clamped with
`btMin` to `MAX_TIMESTEP`, and passed to the simulator step together with the
fixed sub-step size and maximum sub-step count. The embedding takes the clock
reading as input and returns the simulator call it makes. -/
def stepSimulation (elapsedMicroseconds : Nat) : StepCall :=
  let MAX_TIMESTEP : ℚ := 1/30
  let MAX_NUM_SUBSTEPS : Nat := 2
  let FIXED_SUBSTEP : ℚ := 1/60
  let dt : ℚ := (1/1000000) * (elapsedMicroseconds : ℚ)
  let timeStep := min dt MAX_TIMESTEP
  { timeStep := timeStep, maxNumSubSteps := MAX_NUM_SUBSTEPS, fixedSubStep := FIXED_SUBSTEP }

/-- `PhysicsEngine::addVoxel(position, scale)` (lines 61-91). -/
def addVoxel (e : PhysicsEngine) (position : Vec3) (scale : ℚ) : Bool × PhysicsEngine :=
  let halfExtents : Vec3 := ⟨scale / 2, scale / 2, scale / 2⟩
  let trueCenter := Vec3.add position halfExtents
  let key := positionHashKey trueCenter
  match e.voxels key with
  | some _ => (false, e)
  | Option.none =>
      let info := ShapeInfo.setBox halfExtents
      let acq := e.shapeManager.getShape info
      let shape := acq.1
      let e := { e with shapeManager := acq.2 }
      if shape ≠ ShapeInfo.noShape then
        let oid := e.nextId
        let shiftedCenter := Vec3.add (Vec3.sub position e.originOffset) halfExtents
        let object : BtCollisionObject :=
          { shape := shape
            worldTransform := { origin := shiftedCenter }
            collisionFlags := { staticObject := true, kinematicObject := false } }
        let e := { e with
          objects := fun i => if i = oid then some object else e.objects i
          nextId := e.nextId + 1 }
        let e := { e with voxels := fun k =>
          if k = key then some { trueCenter := trueCenter, object := oid } else e.voxels k }
        (true, { e with worldObjects := e.worldObjects ++ [oid] })
      else (false, e)

/-- `PhysicsEngine::removeVoxel(position, scale)` (lines 93-115). -/
def removeVoxel (e : PhysicsEngine) (position : Vec3) (scale : ℚ) : Bool × PhysicsEngine :=
  let halfExtents : Vec3 := ⟨scale / 2, scale / 2, scale / 2⟩
  let trueCenter := Vec3.add position halfExtents
  let key := positionHashKey trueCenter
  match e.voxels key with
  | some voxel =>
      let e := { e with worldObjects := e.worldObjects.erase voxel.object }
      let info := ShapeInfo.setBox halfExtents
      let rel := e.shapeManager.releaseShape info
      let e := btAssert { e with shapeManager := rel.2 } rel.1
      let e := { e with objects := fun i => if i = voxel.object then Option.none else e.objects i }
      (true, { e with voxels := fun k => if k = key then Option.none else e.voxels k })
  | Option.none => (false, e)

/-- `PhysicsEngine::addEntity(motionState)` (lines 126-171). The source sets
the back-reference inside each switch case before the common tail; the
embedding sets it after the common tail, which is observationally identical
because `applyVelocities` / `applyGravity` act on the body being built. A
missing proxy models the NULL argument rejected by `assert(motionState)`. -/
def addEntity (e : PhysicsEngine) (msId : Nat) : Bool × PhysicsEngine :=
  match e.motionStates msId with
  | Option.none => (false, btAssert e false)
  | some ms =>
      let info := ms.shapeInfo
      let acq := e.shapeManager.getShape info
      let shape := acq.1
      let e := { e with shapeManager := acq.2 }
      if shape ≠ ShapeInfo.noShape then
        let bid := e.nextId
        let body :=
          match ms.motionType with
          | MotionType.kinematic =>
              let b := newRigidBody 0 msId ms.worldTransform shape Vec3.zero
              { b with
                collisionFlags := { staticObject := false, kinematicObject := true }
                activationState := ActivationState.disableDeactivation }
          | MotionType.dynamic =>
              let mass := ms.mass
              let inertia := shape.calculateLocalInertia mass
              let b := newRigidBody mass msId ms.worldTransform shape inertia
              ms.applyGravity (ms.applyVelocities b)
          | MotionType.static =>
              let b := newRigidBody 0 msId ms.worldTransform shape Vec3.zero
              { b with collisionFlags := { staticObject := true, kinematicObject := false } }
        let body := { body with
          disableWorldGravity := true
          restitution := ms.restitution
          friction := ms.friction }
        let e := { e with
          bodies := fun i => if i = bid then some body else e.bodies i
          nextId := e.nextId + 1 }
        let e := setMsBody e msId (some bid)
        (true, { e with worldBodies := e.worldBodies ++ [bid] })
      else (false, e)

/-- `PhysicsEngine::removeEntity(motionState)` (lines 173-187). A dangling
back-reference (body identifier not allocated) is unreachable through the
interface from well-formed states; the source would dereference freed memory
there, the embedding returns failure. -/
def removeEntity (e : PhysicsEngine) (msId : Nat) : Bool × PhysicsEngine :=
  match e.motionStates msId with
  | Option.none => (false, btAssert e false)
  | some ms =>
      match ms.body with
      | Option.none => (false, e)
      | some bid =>
          match e.bodies bid with
          | Option.none => (false, e)
          | some body =>
              let info := ShapeInfo.collectInfo body.shape
              let e := { e with worldBodies := e.worldBodies.erase bid }
              let e := { e with shapeManager := (e.shapeManager.releaseShape info).2 }
              let e := { e with bodies := fun i => if i = bid then Option.none else e.bodies i }
              (true, setMsBody e msId Option.none)

/-- `PhysicsEngine::updateEntityEasy(body, motionState, flags)` (lines
289-315), as a transformation of the body it operates on: conditional
position and velocity writes, the unconditional restitution/friction
refresh, the conditional mass-property recomputation from the current shape
of the body, and the final activation. -/
def updateEntityEasy (ms : CustomMotionState) (flags : UpdateFlags) (body : RigidBody) :
    RigidBody :=
  let body :=
    if flags.position then { body with worldTransform := ms.worldTransform } else body
  let body :=
    if flags.velocity then ms.applyGravity (ms.applyVelocities body) else body
  let body := { body with restitution := ms.restitution, friction := ms.friction }
  let body :=
    if flags.mass then
      let inertia := body.shape.calculateLocalInertia ms.mass
      { body with mass := ms.mass, inertia := inertia }
    else body
  body.activate false

/-- `PhysicsEngine::updateEntityHard(body, motionState, flags)` (lines
206-286): pull the body out of the world; if `Shape` is set, acquire the newly
computed shape, swap it onto the body when it differs (releasing the old
reference) or release the fresh reference when unchanged, then assert that
`Mass` accompanies `Shape`; apply the easy steps when any easy bit is set;
apply the canonical state of the new classification; reinsert and activate.
(The source also computes the old classification from the body flags but never
uses it afterwards.) -/
def updateEntityHard (e : PhysicsEngine) (bid : Nat) (ms : CustomMotionState)
    (flags : UpdateFlags) : PhysicsEngine :=
  match e.bodies bid with
  | Option.none => e
  | some body0 =>
      let e := { e with worldBodies := e.worldBodies.erase bid }
      let e :=
        if flags.shape then
          let oldShape := body0.shape
          let acq := e.shapeManager.getShape ms.shapeInfo
          let newShape := acq.1
          let e := { e with shapeManager := acq.2 }
          let e :=
            if newShape ≠ oldShape then
              let e := modifyBody e bid (fun b => { b with shape := newShape })
              { e with shapeManager :=
                  (e.shapeManager.releaseShape (ShapeInfo.collectInfo oldShape)).2 }
            else
              { e with shapeManager :=
                  (e.shapeManager.releaseShape (ShapeInfo.collectInfo newShape)).2 }
          btAssert e flags.mass
        else e
      let e := if flags.easy then modifyBody e bid (updateEntityEasy ms flags) else e
      let e := modifyBody e bid (fun b =>
        match ms.motionType with
        | MotionType.kinematic =>
            { b with
              collisionFlags := { staticObject := false, kinematicObject := true }
              activationState := ActivationState.disableDeactivation
              mass := 0, inertia := Vec3.zero }
        | MotionType.dynamic =>
            let b := { b with
              collisionFlags := { staticObject := false, kinematicObject := false } }
            let b :=
              if flags.mass then b
              else
                let mass := ms.mass
                let inertia := b.shape.calculateLocalInertia mass
                { b with mass := mass, inertia := inertia }
            b.activate true
        | MotionType.static =>
            { b with
              collisionFlags := { staticObject := true, kinematicObject := false }
              activationState := ActivationState.disableSimulation
              mass := 0, inertia := Vec3.zero
              linearVelocity := Vec3.zero, angularVelocity := Vec3.zero })
      let e := { e with worldBodies := e.worldBodies ++ [bid] }
      modifyBody e bid (fun b => b.activate false)

/-- `PhysicsEngine::updateEntity(motionState, flags)` (lines 189-203): fail
when the back-reference is NULL; dispatch to the hard path when any hard bit
is set, else to the easy path when any easy bit is set; report success
otherwise as well. -/
def updateEntity (e : PhysicsEngine) (msId : Nat) (flags : UpdateFlags) :
    Bool × PhysicsEngine :=
  match e.motionStates msId with
  | Option.none => (false, e)
  | some ms =>
      match ms.body with
      | Option.none => (false, e)
      | some bid =>
          if flags.hard then (true, updateEntityHard e bid ms flags)
          else if flags.easy then (true, modifyBody e bid (updateEntityEasy ms flags))
          else (true, e)

/-- The identifiers of the bodies currently inserted in the dynamics world
whose motion-state back-pointer is `msId` — the simulator bodies of the
proxy. -/
def proxyWorldBodies (e : PhysicsEngine) (msId : Nat) : List Nat :=
  e.worldBodies.filter (fun bid => bodyMs e bid == some msId)

/-- Per-proxy bookkeeping consistency: a NULL back-reference means the
simulator holds no body of the proxy, and a non-NULL back-reference means the
simulator holds exactly the referenced body for it. -/
def consistentProxy (e : PhysicsEngine) (msId : Nat) : Bool :=
  match e.motionStates msId with
  | some ms =>
      match ms.body with
      | some bid => proxyWorldBodies e msId == [bid]
      | Option.none => proxyWorldBodies e msId == []
  | Option.none => true

/-- Allocation well-formedness: every body identifier in the world was
allocated below the allocation counter (fresh identifiers are really fresh). -/
def wfEngine (e : PhysicsEngine) : Bool :=
  e.worldBodies.all (fun bid => bid < e.nextId)

/-- The empty Shape Cache accepting every descriptor, for concrete states. -/
def smEmpty : ShapeManager :=
  { valid := fun _ => true, counts := fun _ => Option.none }

/-- A dynamic proxy with mass 2 and a unit-box shape, not yet added. -/
def msDyn : CustomMotionState :=
  { shapeInfo := ShapeInfo.box ⟨1/2, 1/2, 1/2⟩
    motionType := MotionType.dynamic
    mass := 2
    worldTransform := { origin := ⟨1, 2, 3⟩ }
    linearVelocity := ⟨1, 0, 0⟩
    angularVelocity := Vec3.zero
    gravity := ⟨0, -10, 0⟩
    restitution := 1/4
    friction := 1/2
    body := Option.none }

/-- A fresh engine holding the single proxy `msDyn` at identifier 0. -/
def engine0 : PhysicsEngine :=
  { shapeManager := smEmpty
    originOffset := Vec3.zero
    voxels := fun _ => Option.none
    objects := fun _ => Option.none
    worldObjects := []
    motionStates := fun i => if i = 0 then some msDyn else Option.none
    bodies := fun _ => Option.none
    worldBodies := []
    nextId := 1
    assertionFailures := 0 }

/-- `engine0` after one `addEntity` of proxy 0. -/
def engine1 : PhysicsEngine := (addEntity engine0 0).2

/-- `engine1` after a second `addEntity` of the same, already-added proxy. -/
def engine2 : PhysicsEngine := (addEntity engine1 0).2

/-- `engine2` after `removeEntity` of proxy 0. -/
def engine3 : PhysicsEngine := (removeEntity engine2 0).2


/-- Flags with only the Velocity bit set. -/
def velocityOnlyFlags : UpdateFlags :=
  { position := false, velocity := true, mass := false, motionType := false, shape := false }

/-- Flags with only the classification-change bit set. -/
def motionTypeOnlyFlags : UpdateFlags :=
  { position := false, velocity := false, mass := false, motionType := true, shape := false }

/-- Flags with only the Shape bit set (the combination violating the
Shape-implies-Mass contract). -/
def shapeOnlyFlags : UpdateFlags :=
  { position := false, velocity := false, mass := false, motionType := false, shape := true }

/-- Flags with Shape and Mass set. -/
def shapeMassFlags : UpdateFlags :=
  { position := false, velocity := false, mass := true, motionType := false, shape := true }

/-- A half-unit box descriptor. -/
def boxA : ShapeInfo := ShapeInfo.box ⟨1/2, 1/2, 1/2⟩

/-- A unit box descriptor, distinct from `boxA`. -/
def boxB : ShapeInfo := ShapeInfo.box ⟨1, 1, 1⟩

/-- A proxy now reporting Dynamic (mass 2) whose simulator body (identifier 5)
is still configured Static: the input of the Static-to-Dynamic hard update. -/
def msStat : CustomMotionState :=
  { shapeInfo := boxA
    motionType := MotionType.dynamic
    mass := 2
    worldTransform := { origin := ⟨1, 2, 3⟩ }
    linearVelocity := ⟨1, 0, 0⟩
    angularVelocity := Vec3.zero
    gravity := ⟨0, -10, 0⟩
    restitution := 1/4
    friction := 1/2
    body := some 5 }

/-- The Static-configured simulator body of `msStat`. -/
def bodyStat : RigidBody :=
  { msId := 0
    shape := boxA
    mass := 0
    inertia := Vec3.zero
    collisionFlags := { staticObject := true, kinematicObject := false }
    activationState := ActivationState.activeTag
    disableWorldGravity := true
    worldTransform := { origin := ⟨1, 2, 3⟩ }
    linearVelocity := Vec3.zero
    angularVelocity := Vec3.zero
    gravity := Vec3.zero
    restitution := 1/4
    friction := 1/2 }

/-- An engine holding the registered proxy `msStat` (identifier 0) with its
body (identifier 5) in the world and one cached reference to its shape. -/
def engineStatic : PhysicsEngine :=
  { shapeManager :=
      { valid := fun _ => true
        counts := fun d => if d = boxA then some 1 else Option.none }
    originOffset := Vec3.zero
    voxels := fun _ => Option.none
    objects := fun _ => Option.none
    worldObjects := []
    motionStates := fun i => if i = 0 then some msStat else Option.none
    bodies := fun i => if i = 5 then some bodyStat else Option.none
    worldBodies := [5]
    nextId := 6
    assertionFailures := 0 }

/-- A Static proxy now reporting the changed shape `boxB` while its body
still holds `boxA`. -/
def msC9 : CustomMotionState :=
  { msStat with shapeInfo := boxB, motionType := MotionType.static }

/-- `engineStatic` with `msC9` as the proxy: the state in which an update
with Shape set but Mass clear arrives. -/
def engineC9 : PhysicsEngine :=
  { engineStatic with motionStates := fun i => if i = 0 then some msC9 else Option.none }


theorem modifyBody_shapeManager (e : PhysicsEngine) (bid : Nat) (f : RigidBody → RigidBody) :
    (modifyBody e bid f).shapeManager = e.shapeManager := rfl

theorem modifyBody_worldBodies (e : PhysicsEngine) (bid : Nat) (f : RigidBody → RigidBody) :
    (modifyBody e bid f).worldBodies = e.worldBodies := rfl

theorem modifyBody_motionStates (e : PhysicsEngine) (bid : Nat) (f : RigidBody → RigidBody) :
    (modifyBody e bid f).motionStates = e.motionStates := rfl

theorem modifyBody_assertionFailures (e : PhysicsEngine) (bid : Nat) (f : RigidBody → RigidBody) :
    (modifyBody e bid f).assertionFailures = e.assertionFailures := rfl

theorem modifyBody_bodies_self (e : PhysicsEngine) (bid : Nat) (f : RigidBody → RigidBody) :
    (modifyBody e bid f).bodies bid = (e.bodies bid).map f := by
  simp [modifyBody]

theorem modifyBody_bodies_ne (e : PhysicsEngine) (bid i : Nat) (f : RigidBody → RigidBody)
    (h : i ≠ bid) : (modifyBody e bid f).bodies i = e.bodies i := by
  simp [modifyBody, h]

theorem btAssert_shapeManager (e : PhysicsEngine) (c : Bool) :
    (btAssert e c).shapeManager = e.shapeManager := by
  cases c <;> rfl

theorem btAssert_worldBodies (e : PhysicsEngine) (c : Bool) :
    (btAssert e c).worldBodies = e.worldBodies := by
  cases c <;> rfl

theorem btAssert_motionStates (e : PhysicsEngine) (c : Bool) :
    (btAssert e c).motionStates = e.motionStates := by
  cases c <;> rfl

theorem btAssert_bodies (e : PhysicsEngine) (c : Bool) :
    (btAssert e c).bodies = e.bodies := by
  cases c <;> rfl

/-- The activation call as a plain record update, for rewriting. -/
theorem activate_eq (b : RigidBody) (force : Bool) :
    b.activate force =
      { b with activationState :=
          if force || (!b.collisionFlags.staticObject && !b.collisionFlags.kinematicObject) then
            ActivationState.activeTag
          else b.activationState } := by
  unfold RigidBody.activate
  split
  · rfl
  · rfl

theorem activate_msId (b : RigidBody) (force : Bool) : (b.activate force).msId = b.msId := by
  rw [activate_eq]

theorem updateEntityEasy_msId (ms : CustomMotionState) (flags : UpdateFlags) (b : RigidBody) :
    (updateEntityEasy ms flags b).msId = b.msId := by
  unfold updateEntityEasy CustomMotionState.applyGravity CustomMotionState.applyVelocities
  rw [activate_msId]
  split_ifs <;> rfl

theorem bodyMs_modifyBody (e : PhysicsEngine) (bid i : Nat) (f : RigidBody → RigidBody)
    (hf : ∀ b, (f b).msId = b.msId) : bodyMs (modifyBody e bid f) i = bodyMs e i := by
  by_cases hi : i = bid
  · subst hi
    rw [bodyMs, modifyBody_bodies_self]
    rcases hb : e.bodies i with _ | b <;> simp [bodyMs, hb, hf]
  · rw [bodyMs, modifyBody_bodies_ne _ _ _ _ hi, bodyMs]

/-- C8: when the elapsed wall-clock time since the previous call exceeds the
maximum timestep, the timestep passed to the simulator step equals the maximum
timestep (line 57: `btMin(dt, MAX_TIMESTEP)`), never the elapsed time. -/
theorem stepSimulation_clamps_timestep (elapsedMicroseconds : Nat)
    (h : (1/1000000 : ℚ) * (elapsedMicroseconds : ℚ) > 1/30) :
    (stepSimulation elapsedMicroseconds).timeStep = 1/30 := by
  unfold stepSimulation
  exact min_eq_right (le_of_lt h)

/-- Witness for C8 at a tenth of a second (100000 microseconds). -/
theorem stepSimulation_clamps_timestep_witness :
    (1/1000000 : ℚ) * ((100000 : Nat) : ℚ) > 1/30 ∧
      (stepSimulation 100000).timeStep = 1/30 :=
  ⟨by norm_num, stepSimulation_clamps_timestep 100000 (by norm_num)⟩

/-- C10: every rigid body created by a successful addEntity, whatever the
motion classification of the proxy, is inserted into the simulator with the
disable-world-gravity rigid-body flag set (line 164), and its gravity is
written only by the applyGravity call of the proxy — it equals the proxy
gravity for a Dynamic proxy and stays zero otherwise. -/
theorem addEntity_disables_world_gravity
    (e : PhysicsEngine) (msId : Nat) (ms : CustomMotionState)
    (hms : e.motionStates msId = some ms)
    (hok : (addEntity e msId).1 = true) :
    ∃ b, ((addEntity e msId).2).bodies e.nextId = some b ∧
      b.disableWorldGravity = true ∧
      e.nextId ∈ ((addEntity e msId).2).worldBodies ∧
      b.gravity = (if ms.motionType = MotionType.dynamic then ms.gravity else Vec3.zero) := by
  rcases hsh : (e.shapeManager.getShape ms.shapeInfo).1 with _ | he
  · exfalso
    simp [addEntity, hms, hsh] at hok
  · rcases hmt : ms.motionType <;>
      simp [addEntity, hms, hsh, hmt, setMsBody, newRigidBody,
        CustomMotionState.applyGravity, CustomMotionState.applyVelocities]

/-- Witness for C10 at the fresh engine and its dynamic proxy. -/
theorem addEntity_disables_world_gravity_witness :
    engine0.motionStates 0 = some msDyn ∧ (addEntity engine0 0).1 = true ∧
    (∃ b, ((addEntity engine0 0).2).bodies engine0.nextId = some b ∧
      b.disableWorldGravity = true ∧
      engine0.nextId ∈ ((addEntity engine0 0).2).worldBodies ∧
      b.gravity = (if msDyn.motionType = MotionType.dynamic then msDyn.gravity else Vec3.zero)) :=
  ⟨rfl, by decide, addEntity_disables_world_gravity engine0 0 msDyn rfl (by decide)⟩

/-- C7: updateEntity with only the Velocity flag set takes the easy path and
leaves the collision flags of the body and the position of its world
transform unchanged, while its linear and angular velocity (and local
gravity) are updated from the proxy. -/
theorem updateEntity_velocity_only
    (e : PhysicsEngine) (msId bid : Nat) (ms : CustomMotionState) (body : RigidBody)
    (hms : e.motionStates msId = some ms)
    (href : ms.body = some bid)
    (hbody : e.bodies bid = some body) :
    (updateEntity e msId velocityOnlyFlags).1 = true ∧
    ∃ b, ((updateEntity e msId velocityOnlyFlags).2).bodies bid = some b ∧
      b.collisionFlags = body.collisionFlags ∧
      b.worldTransform = body.worldTransform ∧
      b.linearVelocity = ms.linearVelocity ∧
      b.angularVelocity = ms.angularVelocity ∧
      b.gravity = ms.gravity := by
  constructor
  · simp [updateEntity, hms, href, velocityOnlyFlags, UpdateFlags.hard, UpdateFlags.easy]
  · simp [updateEntity, hms, href, velocityOnlyFlags, UpdateFlags.hard, UpdateFlags.easy,
      modifyBody_bodies_self, hbody, updateEntityEasy, CustomMotionState.applyGravity,
      CustomMotionState.applyVelocities, activate_eq]

/-- Witness for C7 at the registered static body of `engineStatic`. -/
theorem updateEntity_velocity_only_witness :
    engineStatic.motionStates 0 = some msStat ∧ msStat.body = some 5 ∧
      engineStatic.bodies 5 = some bodyStat ∧
      ((updateEntity engineStatic 0 velocityOnlyFlags).1 = true ∧
        ∃ b, ((updateEntity engineStatic 0 velocityOnlyFlags).2).bodies 5 = some b ∧
          b.collisionFlags = bodyStat.collisionFlags ∧
          b.worldTransform = bodyStat.worldTransform ∧
          b.linearVelocity = msStat.linearVelocity ∧
          b.angularVelocity = msStat.angularVelocity ∧
          b.gravity = msStat.gravity) :=
  ⟨rfl, rfl, rfl, updateEntity_velocity_only engineStatic 0 5 msStat bodyStat rfl rfl rfl⟩

/-- C3: for a registered proxy whose body is currently Static while the proxy
now reports Dynamic with non-zero mass, an update with any flag combination
that triggers the hard path leaves the body with both static and kinematic
collision flags cleared, mass equal to the (non-zero) reported proxy mass,
and the active simulation state. -/
theorem hard_update_static_to_dynamic
    (e : PhysicsEngine) (msId bid : Nat) (ms : CustomMotionState) (body : RigidBody)
    (flags : UpdateFlags)
    (hms : e.motionStates msId = some ms)
    (href : ms.body = some bid)
    (hbody : e.bodies bid = some body)
    (_hstatic : body.collisionFlags.staticObject = true)
    (hdyn : ms.motionType = MotionType.dynamic)
    (hmass : ms.mass ≠ 0)
    (hhard : flags.hard = true) :
    (updateEntity e msId flags).1 = true ∧
    ∃ b, ((updateEntity e msId flags).2).bodies bid = some b ∧
      b.collisionFlags.staticObject = false ∧
      b.collisionFlags.kinematicObject = false ∧
      b.mass = ms.mass ∧ b.mass ≠ 0 ∧
      b.activationState = ActivationState.activeTag := by
  have hdisp : updateEntity e msId flags = (true, updateEntityHard e bid ms flags) := by
    simp [updateEntity, hms, href, hhard]
  rw [hdisp]
  refine ⟨rfl, ?_⟩
  rcases flags with ⟨p, v, m, mt, s⟩
  cases mt <;> cases s <;>
    [skip; skip; skip; skip] <;>
    first
      | (simp [UpdateFlags.hard] at hhard; done)
      | (cases p <;> cases v <;> cases m <;>
          simp [updateEntityHard, hbody, updateEntityEasy, modifyBody, btAssert,
            CustomMotionState.applyGravity, CustomMotionState.applyVelocities, activate_eq,
            hdyn, hmass, UpdateFlags.easy] <;>
          split_ifs <;>
          simp [hbody, hmass])

/-- Witness for C3: `engineStatic` hard-updated with only the
classification-change bit set. -/
theorem hard_update_static_to_dynamic_witness :
    engineStatic.motionStates 0 = some msStat ∧ msStat.body = some 5 ∧
      engineStatic.bodies 5 = some bodyStat ∧
      bodyStat.collisionFlags.staticObject = true ∧
      msStat.motionType = MotionType.dynamic ∧ msStat.mass ≠ 0 ∧
      motionTypeOnlyFlags.hard = true ∧
      ((updateEntity engineStatic 0 motionTypeOnlyFlags).1 = true ∧
        ∃ b, ((updateEntity engineStatic 0 motionTypeOnlyFlags).2).bodies 5 = some b ∧
          b.collisionFlags.staticObject = false ∧
          b.collisionFlags.kinematicObject = false ∧
          b.mass = msStat.mass ∧ b.mass ≠ 0 ∧
          b.activationState = ActivationState.activeTag) :=
  ⟨rfl, rfl, rfl, rfl, rfl, by norm_num [msStat], rfl,
    hard_update_static_to_dynamic engineStatic 0 5 msStat bodyStat motionTypeOnlyFlags
      rfl rfl rfl rfl rfl (by norm_num [msStat]) rfl⟩

/-- The Shape Cache state after a hard update: only the Shape step touches it
(acquire the newly computed descriptor, then release either the replaced old
shape or, when unchanged, the fresh reference). -/
theorem updateEntityHard_shapeManager (e : PhysicsEngine) (bid : Nat)
    (ms : CustomMotionState) (flags : UpdateFlags) (body : RigidBody)
    (hbody : e.bodies bid = some body) :
    (updateEntityHard e bid ms flags).shapeManager =
      (if flags.shape then
        (if (e.shapeManager.getShape ms.shapeInfo).1 ≠ body.shape then
          (((e.shapeManager.getShape ms.shapeInfo).2).releaseShape body.shape).2
        else
          (((e.shapeManager.getShape ms.shapeInfo).2).releaseShape
            (e.shapeManager.getShape ms.shapeInfo).1).2)
      else e.shapeManager) := by
  simp only [updateEntityHard, hbody, ShapeInfo.collectInfo]
  split_ifs <;>
    first
      | rfl
      | simp [modifyBody_shapeManager, btAssert_shapeManager]

/-- C4: a hard update with Shape set whose newly computed descriptor resolves
to the very cached shape the body already holds leaves the net Shape Cache
reference count of that descriptor unchanged — the acquire performed during
lookup is cancelled by the immediate release (lines 226-230). -/
theorem hard_update_unchanged_shape_refcount
    (e : PhysicsEngine) (msId bid : Nat) (ms : CustomMotionState) (body : RigidBody)
    (flags : UpdateFlags)
    (hms : e.motionStates msId = some ms)
    (href : ms.body = some bid)
    (hbody : e.bodies bid = some body)
    (hshape : flags.shape = true)
    (hsame : (e.shapeManager.getShape ms.shapeInfo).1 = body.shape)
    (hnn : body.shape ≠ ShapeInfo.noShape) :
    ((updateEntity e msId flags).2).shapeManager.refCount ms.shapeInfo =
      e.shapeManager.refCount ms.shapeInfo := by
  have hhard : flags.hard = true := by simp [UpdateFlags.hard, hshape]
  have hdisp : updateEntity e msId flags = (true, updateEntityHard e bid ms flags) := by
    simp [updateEntity, hms, href, hhard]
  simp only [hdisp]
  rw [updateEntityHard_shapeManager e bid ms flags body hbody, if_pos hshape,
    if_neg (not_not_intro hsame)]
  by_cases h0 : ms.shapeInfo = ShapeInfo.noShape
  · rw [ShapeManager.getShape, if_pos h0] at hsame
    exact absurd hsame.symm hnn
  · rcases hc : e.shapeManager.counts ms.shapeInfo with _ | n
    · by_cases hv : e.shapeManager.valid ms.shapeInfo = true
      · simp [ShapeManager.getShape, h0, hc, hv, ShapeManager.releaseShape,
          ShapeManager.refCount]
      · rw [ShapeManager.getShape, if_neg h0] at hsame
        simp only [hc] at hsame
        rw [if_neg hv] at hsame
        exact absurd hsame.symm hnn
    · rcases n with _ | k <;>
        simp [ShapeManager.getShape, h0, hc, ShapeManager.releaseShape,
          ShapeManager.refCount]

/-- Witness for C4: `engineStatic` with Shape and Mass set; the recomputed
descriptor is the shape the body already holds. -/
theorem hard_update_unchanged_shape_refcount_witness :
    engineStatic.motionStates 0 = some msStat ∧ msStat.body = some 5 ∧
      engineStatic.bodies 5 = some bodyStat ∧ shapeMassFlags.shape = true ∧
      (engineStatic.shapeManager.getShape msStat.shapeInfo).1 = bodyStat.shape ∧
      bodyStat.shape ≠ ShapeInfo.noShape ∧
      ((updateEntity engineStatic 0 shapeMassFlags).2).shapeManager.refCount msStat.shapeInfo =
        engineStatic.shapeManager.refCount msStat.shapeInfo :=
  ⟨rfl, rfl, rfl, rfl,
    by simp [engineStatic, msStat, bodyStat, ShapeManager.getShape, boxA],
    by simp [bodyStat, boxA],
    hard_update_unchanged_shape_refcount engineStatic 0 5 msStat bodyStat shapeMassFlags
      rfl rfl rfl rfl
      (by simp [engineStatic, msStat, bodyStat, ShapeManager.getShape, boxA])
      (by simp [bodyStat, boxA])⟩

/-- C9 (amended): an update with Shape set but Mass clear on a registered
proxy is not rejected — it succeeds, the newly acquired shape is applied to
the body, and the Shape-implies-Mass violation is recorded only by the debug
assertion site inside the hard-update routine (line 232), which sits after
the shape swap. -/
theorem shape_without_mass_applied_then_asserted
    (e : PhysicsEngine) (msId bid : Nat) (ms : CustomMotionState) (body : RigidBody)
    (flags : UpdateFlags)
    (hms : e.motionStates msId = some ms)
    (href : ms.body = some bid)
    (hbody : e.bodies bid = some body)
    (hshape : flags.shape = true)
    (hnomass : flags.mass = false) :
    (updateEntity e msId flags).1 = true ∧
    ((updateEntity e msId flags).2).assertionFailures = e.assertionFailures + 1 ∧
    ∃ b, ((updateEntity e msId flags).2).bodies bid = some b ∧
      b.shape = (e.shapeManager.getShape ms.shapeInfo).1 := by
  have hhard : flags.hard = true := by simp [UpdateFlags.hard, hshape]
  have hdisp : updateEntity e msId flags = (true, updateEntityHard e bid ms flags) := by
    simp [updateEntity, hms, href, hhard]
  rw [hdisp]
  refine ⟨rfl, ?_, ?_⟩ <;>
    · rcases flags with ⟨p, v, m, mt, s⟩
      simp only at hshape hnomass
      subst hshape hnomass
      cases p <;> cases v <;> cases mt <;> rcases hmt : ms.motionType <;>
        simp [updateEntityHard, hbody, updateEntityEasy, modifyBody, btAssert,
          CustomMotionState.applyGravity, CustomMotionState.applyVelocities, activate_eq,
          hmt, UpdateFlags.easy] <;>
        split_ifs <;>
        first
          | (simp [hbody]; done)
          | (rename_i hsame; simp [hbody, hsame.symm])

/-- Witness for C9 (amended) at `engineStatic` with only Shape set. -/
theorem shape_without_mass_applied_then_asserted_witness :
    engineStatic.motionStates 0 = some msStat ∧ msStat.body = some 5 ∧
      engineStatic.bodies 5 = some bodyStat ∧
      shapeOnlyFlags.shape = true ∧ shapeOnlyFlags.mass = false ∧
      ((updateEntity engineStatic 0 shapeOnlyFlags).1 = true ∧
        ((updateEntity engineStatic 0 shapeOnlyFlags).2).assertionFailures =
          engineStatic.assertionFailures + 1 ∧
        ∃ b, ((updateEntity engineStatic 0 shapeOnlyFlags).2).bodies 5 = some b ∧
          b.shape = (engineStatic.shapeManager.getShape msStat.shapeInfo).1) :=
  ⟨rfl, rfl, rfl, rfl, rfl,
    shape_without_mass_applied_then_asserted engineStatic 0 5 msStat bodyStat shapeOnlyFlags
      rfl rfl rfl rfl rfl⟩

/-- C9 counterexample: at a concrete registered proxy whose recomputed shape
differs from the one its body holds, an update with Shape set and Mass clear
is not rejected at the boundary and not rejected before application: the call
succeeds, the body ends up carrying the new shape, and only the in-path debug
assertion site records the violation. -/
theorem shape_without_mass_not_rejected_cex :
    (updateEntity engineC9 0 shapeOnlyFlags).1 = true ∧
    (((updateEntity engineC9 0 shapeOnlyFlags).2).bodies 5).map (fun b => b.shape) =
      some boxB ∧
    ((updateEntity engineC9 0 shapeOnlyFlags).2).assertionFailures = 1 ∧
    engineC9.assertionFailures = 0 ∧
    (engineC9.bodies 5).map (fun b => b.shape) = some boxA ∧ boxA ≠ boxB := by
  refine ⟨?_, ?_, ?_, rfl, rfl, by simp [boxA, boxB]⟩ <;>
    simp [updateEntity, updateEntityHard, engineC9, engineStatic, msC9, msStat, bodyStat,
      shapeOnlyFlags, UpdateFlags.hard, UpdateFlags.easy, ShapeManager.getShape,
      ShapeManager.releaseShape, ShapeInfo.collectInfo, modifyBody, btAssert,
      updateEntityEasy, activate_eq, boxA, boxB]

/-- If a filter returns exactly the singleton of an element satisfying the
predicate, erasing that element leaves nothing satisfying it. -/
theorem filter_singleton_erase (p : Nat → Bool) (l : List Nat) (a : Nat)
    (hpa : p a = true) (h : l.filter p = [a]) : (l.erase a).filter p = [] := by
  induction l with
  | nil => simp at h
  | cons x xs ih =>
      by_cases hx : p x
      · rw [List.filter_cons_of_pos hx] at h
        obtain ⟨rfl, htail⟩ : x = a ∧ xs.filter p = [] := by simpa using h
        rw [List.erase_cons_head]
        exact htail
      · rw [List.filter_cons_of_neg hx] at h
        have hxa : ¬(x == a) := by
          simp only [beq_iff_eq]
          rintro rfl
          exact hx hpa
        rw [List.erase_cons_tail hxa, List.filter_cons_of_neg hx]
        exact ih h

theorem proxyWorldBodies_congr (e1 e2 : PhysicsEngine) (msId : Nat)
    (hw : e1.worldBodies = e2.worldBodies)
    (hb : ∀ i, i ∈ e2.worldBodies → bodyMs e1 i = bodyMs e2 i) :
    proxyWorldBodies e1 msId = proxyWorldBodies e2 msId := by
  unfold proxyWorldBodies
  rw [hw]
  exact List.filter_congr (fun i hi => by rw [hb i hi])

theorem addEntity_success_worldBodies (e : PhysicsEngine) (msId : Nat)
    (ms : CustomMotionState) (hms : e.motionStates msId = some ms)
    (hsh : (e.shapeManager.getShape ms.shapeInfo).1 ≠ ShapeInfo.noShape) :
    ((addEntity e msId).2).worldBodies = e.worldBodies ++ [e.nextId] := by
  rcases hmt : ms.motionType <;>
    simp [addEntity, hms, hmt, hsh, setMsBody]

theorem addEntity_success_motionStates (e : PhysicsEngine) (msId : Nat)
    (ms : CustomMotionState) (hms : e.motionStates msId = some ms)
    (hsh : (e.shapeManager.getShape ms.shapeInfo).1 ≠ ShapeInfo.noShape) :
    ((addEntity e msId).2).motionStates msId = some { ms with body := some e.nextId } := by
  rcases hmt : ms.motionType <;>
    simp [addEntity, hms, hmt, hsh, setMsBody]

theorem addEntity_success_bodyMs_self (e : PhysicsEngine) (msId : Nat)
    (ms : CustomMotionState) (hms : e.motionStates msId = some ms)
    (hsh : (e.shapeManager.getShape ms.shapeInfo).1 ≠ ShapeInfo.noShape) :
    bodyMs ((addEntity e msId).2) e.nextId = some msId := by
  rcases hmt : ms.motionType <;>
    simp [addEntity, hms, hmt, hsh, setMsBody, bodyMs, newRigidBody,
      CustomMotionState.applyGravity, CustomMotionState.applyVelocities]

theorem addEntity_success_bodyMs_ne (e : PhysicsEngine) (msId i : Nat)
    (ms : CustomMotionState) (hms : e.motionStates msId = some ms)
    (hsh : (e.shapeManager.getShape ms.shapeInfo).1 ≠ ShapeInfo.noShape)
    (hi : i ≠ e.nextId) :
    bodyMs ((addEntity e msId).2) i = bodyMs e i := by
  rcases hmt : ms.motionType <;>
    simp [addEntity, hms, hmt, hsh, setMsBody, bodyMs, hi]

theorem addEntity_failure (e : PhysicsEngine) (msId : Nat)
    (ms : CustomMotionState) (hms : e.motionStates msId = some ms)
    (hsh : (e.shapeManager.getShape ms.shapeInfo).1 = ShapeInfo.noShape) :
    (addEntity e msId).2 = { e with shapeManager := (e.shapeManager.getShape ms.shapeInfo).2 } := by
  simp [addEntity, hms, hsh]

theorem consistentProxy_addEntity (e : PhysicsEngine) (msId : Nat) (ms : CustomMotionState)
    (hms : e.motionStates msId = some ms)
    (hwf : wfEngine e = true)
    (hb : ms.body = Option.none)
    (hcons : consistentProxy e msId = true) :
    consistentProxy (addEntity e msId).2 msId = true := by
  have hfilter : proxyWorldBodies e msId = [] := by
    simpa [consistentProxy, hms, hb] using hcons
  have hpred : ∀ i, i ∈ e.worldBodies → ¬(bodyMs e i == some msId) := by
    have := List.filter_eq_nil_iff.mp hfilter
    exact this
  by_cases hsh : (e.shapeManager.getShape ms.shapeInfo).1 = ShapeInfo.noShape
  · rw [addEntity_failure e msId ms hms hsh]
    simpa [consistentProxy, hms, hb, proxyWorldBodies, bodyMs] using hfilter
  · have hw := addEntity_success_worldBodies e msId ms hms hsh
    have hmss := addEntity_success_motionStates e msId ms hms hsh
    have hself := addEntity_success_bodyMs_self e msId ms hms hsh
    have h1 : proxyWorldBodies ((addEntity e msId).2) msId = [e.nextId] := by
      unfold proxyWorldBodies
      rw [hw, List.filter_append]
      have hnil : e.worldBodies.filter
          (fun b2 => bodyMs ((addEntity e msId).2) b2 == some msId) = [] := by
        rw [List.filter_eq_nil_iff]
        intro i hi
        have hilt : i < e.nextId := by
          have hall := List.all_eq_true.mp hwf i hi
          simpa using hall
        rw [addEntity_success_bodyMs_ne e msId i ms hms hsh (Nat.ne_of_lt hilt)]
        exact hpred i hi
      rw [hnil]
      simp [hself]
    simp [consistentProxy, hmss, h1]

theorem consistentProxy_removeEntity (e : PhysicsEngine) (msId : Nat)
    (ms : CustomMotionState) (hms : e.motionStates msId = some ms)
    (hcons : consistentProxy e msId = true) :
    consistentProxy (removeEntity e msId).2 msId = true := by
  rcases hb : ms.body with _ | bid
  · simpa [removeEntity, hms, hb] using hcons
  · have hfilter : proxyWorldBodies e msId = [bid] := by
      simpa [consistentProxy, hms, hb] using hcons
    have hmem : bid ∈ proxyWorldBodies e msId := by
      rw [hfilter]
      exact List.mem_singleton.mpr rfl
    have hpredbid : (bodyMs e bid == some msId) = true := (List.mem_filter.mp hmem).2
    rcases hbody : e.bodies bid with _ | body
    · exfalso
      rw [bodyMs, hbody] at hpredbid
      simp at hpredbid
    · have hw : ((removeEntity e msId).2).worldBodies = e.worldBodies.erase bid := by
        simp [removeEntity, hms, hb, hbody, setMsBody]
      have hmss : ((removeEntity e msId).2).motionStates msId =
          some { ms with body := Option.none } := by
        simp [removeEntity, hms, hb, hbody, setMsBody]
      have hnil : proxyWorldBodies ((removeEntity e msId).2) msId = [] := by
        unfold proxyWorldBodies
        rw [hw, List.filter_eq_nil_iff]
        intro i hi
        by_cases hib : i = bid
        · subst hib
          have hgone : ((removeEntity e msId).2).bodies i = Option.none := by
            simp [removeEntity, hms, hb, hbody, setMsBody]
          simp [bodyMs, hgone]
        · have hbms : bodyMs ((removeEntity e msId).2) i = bodyMs e i := by
            simp [bodyMs, removeEntity, hms, hb, hbody, setMsBody, hib]
          rw [hbms]
          intro hpred
          have hmem2 : i ∈ proxyWorldBodies e msId :=
            List.mem_filter.mpr ⟨List.mem_of_mem_erase hi, hpred⟩
          rw [hfilter] at hmem2
          exact hib (by simpa using hmem2)
      simp [consistentProxy, hmss, hnil]

theorem updateEntityHard_motionStates (e : PhysicsEngine) (bid : Nat)
    (ms : CustomMotionState) (flags : UpdateFlags) :
    (updateEntityHard e bid ms flags).motionStates = e.motionStates := by
  rcases hbody : e.bodies bid with _ | body
  · simp [updateEntityHard, hbody]
  · simp only [updateEntityHard, hbody]
    split_ifs <;>
      first
        | rfl
        | simp [modifyBody_motionStates, btAssert_motionStates]

theorem updateEntityHard_worldBodies (e : PhysicsEngine) (bid : Nat)
    (ms : CustomMotionState) (flags : UpdateFlags) (body : RigidBody)
    (hbody : e.bodies bid = some body) :
    (updateEntityHard e bid ms flags).worldBodies = (e.worldBodies.erase bid) ++ [bid] := by
  simp only [updateEntityHard, hbody]
  split_ifs <;>
    first
      | rfl
      | simp [modifyBody_worldBodies, btAssert_worldBodies]

theorem updateEntityHard_bodyMs (e : PhysicsEngine) (bid : Nat) (ms : CustomMotionState)
    (flags : UpdateFlags) (i : Nat) :
    bodyMs (updateEntityHard e bid ms flags) i = bodyMs e i := by
  rcases hbody : e.bodies bid with _ | body
  · simp [updateEntityHard, hbody]
  · by_cases hi : i = bid
    · subst hi
      rcases hmt : ms.motionType <;>
        simp only [updateEntityHard, hbody, hmt, btAssert] <;>
        split_ifs <;>
        simp [bodyMs, modifyBody, hbody, updateEntityEasy_msId, activate_msId]
    · rcases hmt : ms.motionType <;>
        simp only [updateEntityHard, hbody, hmt, btAssert] <;>
        split_ifs <;>
        simp [bodyMs, modifyBody, hi]

theorem consistentProxy_updateEntity (e : PhysicsEngine) (msId : Nat)
    (ms : CustomMotionState) (flags : UpdateFlags)
    (hms : e.motionStates msId = some ms)
    (hcons : consistentProxy e msId = true) :
    consistentProxy (updateEntity e msId flags).2 msId = true := by
  rcases hb : ms.body with _ | bid
  · simpa [updateEntity, hms, hb] using hcons
  · have hfilter : proxyWorldBodies e msId = [bid] := by
      simpa [consistentProxy, hms, hb] using hcons
    have hpredbid : (bodyMs e bid == some msId) = true := by
      have hmem : bid ∈ proxyWorldBodies e msId := by
        rw [hfilter]
        exact List.mem_singleton.mpr rfl
      exact (List.mem_filter.mp hmem).2
    by_cases hhard : flags.hard = true
    · rcases hbody : e.bodies bid with _ | body
      · simpa [updateEntity, hms, hb, hhard, updateEntityHard, hbody] using hcons
      · have hw := updateEntityHard_worldBodies e bid ms flags body hbody
        have hmss := updateEntityHard_motionStates e bid ms flags
        have hpw : proxyWorldBodies (updateEntityHard e bid ms flags) msId = [bid] := by
          unfold proxyWorldBodies
          rw [hw, List.filter_append]
          have h1 : (e.worldBodies.erase bid).filter
              (fun b2 => bodyMs (updateEntityHard e bid ms flags) b2 == some msId) = [] := by
            rw [List.filter_congr
              (fun j _ => by rw [updateEntityHard_bodyMs e bid ms flags j])]
            exact filter_singleton_erase _ _ _ hpredbid hfilter
          have h2 : [bid].filter
              (fun b2 => bodyMs (updateEntityHard e bid ms flags) b2 == some msId) = [bid] := by
            rw [List.filter_congr
              (fun j _ => by rw [updateEntityHard_bodyMs e bid ms flags j])]
            simp [hpredbid]
          rw [h1, h2]
          rfl
        have hdisp : (updateEntity e msId flags).2 = updateEntityHard e bid ms flags := by
          simp [updateEntity, hms, hb, hhard]
        rw [hdisp]
        simp [consistentProxy, hmss, hms, hb, hpw]
    · by_cases heasy : flags.easy = true
      · have hpwb : proxyWorldBodies (modifyBody e bid (updateEntityEasy ms flags)) msId =
            proxyWorldBodies e msId :=
          proxyWorldBodies_congr _ _ _ rfl
            (fun i _ => bodyMs_modifyBody e bid i _ (fun b => updateEntityEasy_msId ms flags b))
        have hdisp : (updateEntity e msId flags).2 =
            modifyBody e bid (updateEntityEasy ms flags) := by
          simp [updateEntity, hms, hb, hhard, heasy]
        rw [hdisp]
        simp [consistentProxy, modifyBody_motionStates, hms, hb, hpwb, hfilter]
      · simpa [updateEntity, hms, hb, hhard, heasy] using hcons

/-- C2 (amended): for a proxy in a bookkeeping-consistent, allocation
well-formed state, the back-reference of the proxy is non-NULL exactly when
the simulator holds a body of the proxy; removeEntity and updateEntity (any
flags) preserve the consistency, and addEntity preserves it provided the
proxy is not already registered (its back-reference is NULL). Calling
addEntity on an already-registered proxy breaks the invariant (see the
counterexample). -/
theorem proxy_body_iff_registered
    (e : PhysicsEngine) (msId : Nat) (ms : CustomMotionState)
    (hms : e.motionStates msId = some ms)
    (hwf : wfEngine e = true)
    (hcons : consistentProxy e msId = true) :
    ((msBody e msId ≠ Option.none) ↔ proxyWorldBodies e msId ≠ []) ∧
    (msBody e msId = Option.none → consistentProxy (addEntity e msId).2 msId = true) ∧
    consistentProxy (removeEntity e msId).2 msId = true ∧
    (∀ flags, consistentProxy (updateEntity e msId flags).2 msId = true) := by
  refine ⟨?_, ?_, ?_, ?_⟩
  · rcases hb : ms.body with _ | bid <;>
      · have hfilter := hcons
        simp only [consistentProxy, hms, hb, beq_iff_eq] at hfilter
        simp [msBody, hms, hb, hfilter]
  · intro hmb
    have hbnone : ms.body = Option.none := by
      rw [msBody, hms] at hmb
      simpa using hmb
    exact consistentProxy_addEntity e msId ms hms hwf hbnone hcons
  · exact consistentProxy_removeEntity e msId ms hms hcons
  · intro flags
    exact consistentProxy_updateEntity e msId ms flags hms hcons

/-- Witness for C2 (amended) at the fresh engine and its unregistered
proxy. -/
theorem proxy_body_iff_registered_witness :
    engine0.motionStates 0 = some msDyn ∧ wfEngine engine0 = true ∧
      consistentProxy engine0 0 = true ∧
      (((msBody engine0 0 ≠ Option.none) ↔ proxyWorldBodies engine0 0 ≠ []) ∧
        (msBody engine0 0 = Option.none → consistentProxy (addEntity engine0 0).2 0 = true) ∧
        consistentProxy (removeEntity engine0 0).2 0 = true ∧
        (∀ flags, consistentProxy (updateEntity engine0 0 flags).2 0 = true)) :=
  ⟨rfl, by decide, by decide,
    proxy_body_iff_registered engine0 0 msDyn rfl (by decide) (by decide)⟩

/-- C2 counterexample: starting from the fresh engine, add proxy 0 twice
(after which the body-iff-registered equivalence still holds), then remove
it: the back-reference becomes NULL while the first body of the proxy is
still inserted in the simulator, so removeEntity does not preserve the
claimed equivalence. -/
theorem proxy_body_iff_registered_cex :
    ((msBody engine2 0 ≠ Option.none) ↔ proxyWorldBodies engine2 0 ≠ []) ∧
    engine3 = (removeEntity engine2 0).2 ∧
    ¬((msBody engine3 0 ≠ Option.none) ↔ proxyWorldBodies engine3 0 ≠ []) := by
  refine ⟨?_, rfl, ?_⟩ <;>
    simp [proxyWorldBodies, engine3, engine2, engine1, engine0, addEntity, removeEntity,
      msDyn, smEmpty, setMsBody, newRigidBody, ShapeManager.getShape,
      ShapeManager.releaseShape, ShapeInfo.collectInfo, CustomMotionState.applyGravity,
      CustomMotionState.applyVelocities, bodyMs, msBody]

/-- C1 (the code evaluated at the failing input): addEntity performs no
already-added check — on a proxy that already has a non-NULL body it runs
again, succeeds, and inserts a second body for the proxy into the simulator
instead of not double-inserting. -/
theorem addEntity_double_insert :
    msBody engine1 0 ≠ Option.none ∧
    (addEntity engine1 0).1 = true ∧
    (proxyWorldBodies engine1 0).length = 1 ∧
    (proxyWorldBodies engine2 0).length = 2 := by
  refine ⟨?_, ?_, ?_, ?_⟩ <;>
    simp [proxyWorldBodies, engine2, engine1, engine0, addEntity, msDyn, smEmpty,
      setMsBody, newRigidBody, ShapeManager.getShape, CustomMotionState.applyGravity,
      CustomMotionState.applyVelocities, bodyMs, msBody]

/-- C6: from a state where the canonical key of the (position, scale) pair is
unoccupied and its box shape is accepted by the Shape Cache, addVoxel twice
returns (true, false) with the second call a no-op, and removeVoxel twice
afterwards returns (true, false) with the second call a safe no-op. -/
theorem addVoxel_removeVoxel_twice
    (e : PhysicsEngine) (position : Vec3) (scale : ℚ)
    (hkey : e.voxels (Vec3.add position ⟨scale / 2, scale / 2, scale / 2⟩) = Option.none)
    (hshape : (e.shapeManager.getShape
        (ShapeInfo.box ⟨scale / 2, scale / 2, scale / 2⟩)).1 ≠ ShapeInfo.noShape) :
    (addVoxel e position scale).1 = true ∧
    (addVoxel (addVoxel e position scale).2 position scale).1 = false ∧
    (removeVoxel (addVoxel (addVoxel e position scale).2 position scale).2 position scale).1
      = true ∧
    (removeVoxel (removeVoxel (addVoxel (addVoxel e position scale).2 position scale).2
        position scale).2 position scale).1 = false := by
  refine ⟨?_, ?_, ?_, ?_⟩ <;>
    simp [addVoxel, removeVoxel, positionHashKey, ShapeInfo.setBox, hkey, hshape, btAssert]

/-- Witness for C6 at the fresh engine, position zero, scale 1. -/
theorem addVoxel_removeVoxel_twice_witness :
    engine0.voxels (Vec3.add ⟨0, 0, 0⟩ ⟨(1 : ℚ) / 2, (1 : ℚ) / 2, (1 : ℚ) / 2⟩) =
        Option.none ∧
    (engine0.shapeManager.getShape
        (ShapeInfo.box ⟨(1 : ℚ) / 2, (1 : ℚ) / 2, (1 : ℚ) / 2⟩)).1 ≠ ShapeInfo.noShape ∧
    ((addVoxel engine0 ⟨0, 0, 0⟩ 1).1 = true ∧
      (addVoxel (addVoxel engine0 ⟨0, 0, 0⟩ 1).2 ⟨0, 0, 0⟩ 1).1 = false ∧
      (removeVoxel (addVoxel (addVoxel engine0 ⟨0, 0, 0⟩ 1).2 ⟨0, 0, 0⟩ 1).2 ⟨0, 0, 0⟩ 1).1
        = true ∧
      (removeVoxel (removeVoxel (addVoxel (addVoxel engine0 ⟨0, 0, 0⟩ 1).2 ⟨0, 0, 0⟩ 1).2
          ⟨0, 0, 0⟩ 1).2 ⟨0, 0, 0⟩ 1).1 = false) :=
  ⟨rfl, by simp [engine0, smEmpty, ShapeManager.getShape],
    addVoxel_removeVoxel_twice engine0 ⟨0, 0, 0⟩ 1 rfl
      (by simp [engine0, smEmpty, ShapeManager.getShape])⟩

/-- C5: a successful addVoxel followed by removeVoxel of the same
(position, scale) pair leaves the Shape Cache reference count of the box
descriptor of the pair exactly as it was before the pair of calls: add
acquires exactly the box shape that remove releases, through the same
canonical descriptor. -/
theorem addVoxel_removeVoxel_refcount
    (e : PhysicsEngine) (position : Vec3) (scale : ℚ)
    (hok : (addVoxel e position scale).1 = true) :
    ((removeVoxel (addVoxel e position scale).2 position scale).2).shapeManager.refCount
        (ShapeInfo.box ⟨scale / 2, scale / 2, scale / 2⟩) =
      e.shapeManager.refCount (ShapeInfo.box ⟨scale / 2, scale / 2, scale / 2⟩) := by
  rcases hv : e.voxels (Vec3.add position ⟨scale / 2, scale / 2, scale / 2⟩) with _ | voxel
  case some =>
    exfalso
    simp [addVoxel, positionHashKey, hv] at hok
  case none =>
  rcases hc : e.shapeManager.counts (ShapeInfo.box ⟨scale / 2, scale / 2, scale / 2⟩)
      with _ | n
  · by_cases hval :
        e.shapeManager.valid (ShapeInfo.box ⟨scale / 2, scale / 2, scale / 2⟩) = true
    · simp [addVoxel, removeVoxel, positionHashKey, ShapeInfo.setBox, hv, hc, hval,
        ShapeManager.getShape, ShapeManager.releaseShape, ShapeManager.refCount, btAssert]
    · exfalso
      simp [addVoxel, positionHashKey, ShapeInfo.setBox, hv, hc, hval,
        ShapeManager.getShape] at hok
  · rcases n with _ | k <;>
      simp [addVoxel, removeVoxel, positionHashKey, ShapeInfo.setBox, hv, hc,
        ShapeManager.getShape, ShapeManager.releaseShape, ShapeManager.refCount, btAssert]

/-- Witness for C5 at the fresh engine, position zero, scale 1. -/
theorem addVoxel_removeVoxel_refcount_witness :
    (addVoxel engine0 ⟨0, 0, 0⟩ 1).1 = true ∧
    ((removeVoxel (addVoxel engine0 ⟨0, 0, 0⟩ 1).2 ⟨0, 0, 0⟩ 1).2).shapeManager.refCount
        (ShapeInfo.box ⟨(1 : ℚ) / 2, (1 : ℚ) / 2, (1 : ℚ) / 2⟩) =
      engine0.shapeManager.refCount
        (ShapeInfo.box ⟨(1 : ℚ) / 2, (1 : ℚ) / 2, (1 : ℚ) / 2⟩) :=
  ⟨by simp [addVoxel, positionHashKey, ShapeInfo.setBox, engine0, smEmpty,
      ShapeManager.getShape],
    addVoxel_removeVoxel_refcount engine0 ⟨0, 0, 0⟩ 1
      (by simp [addVoxel, positionHashKey, ShapeInfo.setBox, engine0, smEmpty,
        ShapeManager.getShape])⟩
